import Mathlib

/-
  Verification of the per-session delivery core of baileys-server-pro.

  Shallow embedding of:
  * src/services/WhatsappSession.js   (session state machine, outbound message
    queue, inbound webhook queue, reconnection backoff, media sends)
  * src/services/SessionManager.js and the SessionManager variant with Meta
    config support (registry: startSession, updateSessionMetadata)
  * src/infrastructure/providers/baileys/BaileysProvider.js (the provider
    variant of the two queues and of the reconnection backoff)

  JavaScript mutation is modelled by explicit state passing; external effects
  (provider init, provider logout, webhook POST results, media downloads,
  timers, the metadata store) are modelled as trace events or oracle inputs.
-/

namespace BaileysServer

/-- Session status values.  `connOpen`, `connClose`, `connecting` stand for the
Baileys connection strings "open", "close", "connecting"; the remaining
constructors are the statuses the code assigns itself. -/
inductive SessionStatus
  | starting
  | connecting
  | connOpen
  | connClose
  | error
  | maxRetriesReached
deriving DecidableEq

/-- Meta Cloud API credentials, `{ phoneId, token }` (apiVersion is irrelevant
to the claims). -/
structure MetaConfig where
  phoneId : String
  token : String
deriving DecidableEq

/-- JS truthiness of a possibly-absent metaConfig object followed by
`metaConfig.phoneId && metaConfig.token` (empty strings are falsy). -/
def metaConfigTruthy : Option MetaConfig → Bool
  | none => false
  | some c => c.phoneId ≠ "" && c.token ≠ ""

/-- JS truthiness of a possibly-absent string (absent and "" are falsy). -/
def strTruthy : Option String → Bool
  | none => false
  | some s => s ≠ ""

/-- The parts of a raw Baileys message relevant to the claims:
`msg.key.fromMe`, truthiness of `msg.message`, and an identifier standing for
the rest of the opaque payload. -/
structure RawMsg where
  fromMe : Bool
  hasContent : Bool
  msgId : Nat
deriving DecidableEq

/-- An inbound webhook delivery job `{ rawMessage, retryCount }`. -/
structure WebhookJob where
  rawMessage : RawMsg
  retryCount : Nat
deriving DecidableEq

/-- An outbound text job `{ number, message }`. -/
structure OutJob where
  number : String
  message : String
deriving DecidableEq

/-- The mutable state of one `WhatsappSession` instance.  `instanceId` models
JS object identity (each `new WhatsappSession` gets a fresh one).
`officialService` models the `OfficialWhatsappService` instance by the config
it was built from (`none` = no service). -/
structure Session where
  instanceId : Nat
  sessionId : String
  status : SessionStatus
  qr : Option Nat
  retryCount : Nat
  webhookUrl : Option String
  metaConfig : Option MetaConfig
  officialService : Option MetaConfig
  messageQueue : List OutJob
  isProcessingQueue : Bool
  webhookQueue : List WebhookJob
  isProcessingWebhookQueue : Bool
deriving DecidableEq

/-- `this.maxRetry = 5` (set in the constructor). -/
def maxRetry : Nat := 5

/-- `this.maxWebhookRetries = 3` (set in the constructor). -/
def maxWebhookRetries : Nat := 3

/-- The `WhatsappSession` constructor: initial field values; the official
service is instantiated when the supplied metaConfig has phoneId and token. -/
def mkWhatsappSession (instanceId : Nat) (sessionId : String)
    (webhookUrl : Option String) (metaConfig : Option MetaConfig) : Session :=
  { instanceId := instanceId
    sessionId := sessionId
    status := .starting
    qr := none
    retryCount := 0
    webhookUrl := webhookUrl
    metaConfig := metaConfig
    officialService := if metaConfigTruthy metaConfig then metaConfig else none
    messageQueue := []
    isProcessingQueue := false
    webhookQueue := []
    isProcessingWebhookQueue := false }

/-- `number.includes("@") ? number : number + "@s.whatsapp.net"`. -/
def toJid (number : String) : String :=
  if number.contains '@' then number else number ++ "@s.whatsapp.net"

/-! ## Outbound sends (WhatsappSession.sendMessage / _performSendMessage;
BaileysProvider has the same logic) -/

/-- Result of `sendMessage`: either the queued marker object
`{ status: "queued" }` or the provider call that was performed. -/
inductive SendOutcome
  | queued
  | sent (jid : String) (text : String)
deriving DecidableEq

/-- `_performSendMessage`: compute the JID and call the provider. -/
def performSendMessage (number message : String) : SendOutcome :=
  .sent (toJid number) message

/-- `WhatsappSession.sendMessage`: enqueue when the session is not open or a
drain is running, otherwise send directly through the provider. -/
def sendMessage (s : Session) (number message : String) :
    Session × SendOutcome :=
  if s.status ≠ .connOpen ∨ s.isProcessingQueue then
    ({ s with messageQueue := s.messageQueue ++ [⟨number, message⟩] }, .queued)
  else
    (s, performSendMessage number message)

/-! ## Media sends (WhatsappSession.sendImage / sendDocument / sendAudio /
sendVideo): throw when the session is not open, otherwise call the provider;
the session state is never touched. -/

inductive MediaContent
  | image (url caption : String)
  | document (url mimetype fileName : String)
  | audio (url mimetype : String)
  | video (url caption : String)
deriving DecidableEq

/-- A provider media call `sock.sendMessage(jid, content)`. -/
structure MediaCall where
  jid : String
  content : MediaContent
deriving DecidableEq

def sendImage (s : Session) (recipient filePath caption : String) :
    Session × Except String MediaCall :=
  if s.status ≠ .connOpen then
    (s, .error "La sesión de WhatsApp no está abierta para enviar imágenes.")
  else
    (s, .ok ⟨toJid recipient, .image filePath caption⟩)

def sendDocument (s : Session) (recipient filePath : String)
    (fileName : Option String) (mimetype : String) :
    Session × Except String MediaCall :=
  if s.status ≠ .connOpen then
    (s, .error "La sesión de WhatsApp no está abierta para enviar documentos.")
  else
    (s, .ok ⟨toJid recipient,
      .document filePath mimetype
        (match fileName with
          | some f => if f = "" then "document" else f
          | none => "document")⟩)

def sendAudio (s : Session) (recipient filePath mimetype : String) :
    Session × Except String MediaCall :=
  if s.status ≠ .connOpen then
    (s, .error "La sesión de WhatsApp no está abierta para enviar audio.")
  else
    (s, .ok ⟨toJid recipient, .audio filePath mimetype⟩)

def sendVideo (s : Session) (recipient filePath caption : String) :
    Session × Except String MediaCall :=
  if s.status ≠ .connOpen then
    (s, .error "La sesión de WhatsApp no está abierta para enviar video.")
  else
    (s, .ok ⟨toJid recipient, .video filePath caption⟩)

/-! ## Outbound queue drain (WhatsappSession.processMessageQueue;
BaileysProvider.processMessageQueue is identical up to logging) -/

/-- Observable events of the outbound drain: a provider send and the fixed
inter-send `setTimeout` delay. -/
inductive QEvent
  | sent (jid text : String)
  | delayMs (ms : Nat)
deriving DecidableEq

/-- The `while` loop of `processMessageQueue`.  `oracle k` tells whether the
k-th provider send attempt of this drain succeeds (the send is an external
call).  On success: emit the send and the 1000ms delay, continue with the rest
of the queue.  On failure: `unshift` the job back and `break`. -/
def messageDrainLoop (oracle : Nat → Bool) :
    List OutJob → Nat → List OutJob × List QEvent
  | [], _ => ([], [])
  | job :: rest, k =>
    if oracle k then
      ((messageDrainLoop oracle rest (k + 1)).1,
        .sent (toJid job.number) job.message :: .delayMs 1000 ::
          (messageDrainLoop oracle rest (k + 1)).2)
    else
      (job :: rest, [])

/-- `processMessageQueue`: single-flight guard, loop, then clear the guard. -/
def processMessageQueue (s : Session) (oracle : Nat → Bool) :
    Session × List QEvent :=
  if s.isProcessingQueue || s.messageQueue.isEmpty then
    (s, [])
  else
    ({ s with
        messageQueue := (messageDrainLoop oracle s.messageQueue 0).1
        isProcessingQueue := false },
      (messageDrainLoop oracle s.messageQueue 0).2)

/-- Sequential `sendMessage` submissions (used to state the FIFO claim). -/
def submitAll : Session → List (String × String) → Session
  | s, [] => s
  | s, nm :: rest => submitAll (sendMessage s nm.1 nm.2).1 rest

/-! ## Inbound webhook queue (WhatsappSession.handleMessages /
processWebhookQueue, and the BaileysProvider variant) -/

/-- `handleMessages`: ignore events when no webhook URL is configured; ignore
self-originated or content-less messages; otherwise append a job with
`retryCount: 0` and trigger the drain (the returned Bool). -/
def handleMessages (s : Session) (msg : RawMsg) : Session × Bool :=
  if !strTruthy s.webhookUrl then
    (s, false)
  else if msg.fromMe || !msg.hasContent then
    (s, false)
  else
    ({ s with webhookQueue := s.webhookQueue ++ [⟨msg, 0⟩] }, true)

/-- Result of one delivery attempt of the head job, as observed by the drain:
the webhook POST returned a status, or some step of the attempt threw (network
error, media-download failure, normalization error). -/
inductive AttemptResult
  | response (status : Nat)
  | thrown
deriving DecidableEq

/-- Observable events of the webhook drain. -/
inductive WEvent
  | delivered
  | delayMs (ms : Nat)
  | alertPermanent
  | alertCritical
  | cooldown (ms : Nat)
deriving DecidableEq

/-- Outcome of processing the head job once: the new queue, the emitted
events, and whether the drain suspended itself (cooldown `setTimeout` that
later clears the guard and re-invokes the drain). -/
structure WStep where
  queue : List WebhookJob
  events : List WEvent
  suspended : Bool
deriving DecidableEq

/-- The `catch` block of `WhatsappSession.processWebhookQueue`:
`job.retryCount++`; at the ceiling drop the job and fire the critical alert
(the loop continues); otherwise `unshift` the job and suspend for 10s. -/
def wsTransientFailure (job : WebhookJob) (rest : List WebhookJob) : WStep :=
  if job.retryCount + 1 ≥ maxWebhookRetries then
    ⟨rest, [.alertCritical], false⟩
  else
    ⟨{ job with retryCount := job.retryCount + 1 } :: rest,
      [.cooldown 10000], true⟩

/-- One iteration of the `while` loop of
`WhatsappSession.processWebhookQueue` on the head job.  `response.ok` is
status in [200, 300); a 4xx response drops the job and fires the permanent
alert; any other status is thrown and lands in the catch block, as does any
thrown error. -/
def wsWebhookAttempt : List WebhookJob → AttemptResult → WStep
  | [], _ => ⟨[], [], false⟩
  | job :: rest, .response st =>
    if 200 ≤ st ∧ st < 300 then
      ⟨rest, [.delivered, .delayMs 500], false⟩
    else if 400 ≤ st ∧ st < 500 then
      ⟨rest, [.alertPermanent], false⟩
    else
      wsTransientFailure job rest
  | job :: rest, .thrown => wsTransientFailure job rest

/-- `true` for the attempt results the code treats as transient. -/
def webhookTransientResult : AttemptResult → Bool
  | .response st =>
    !(decide (200 ≤ st ∧ st < 300)) && !(decide (400 ≤ st ∧ st < 500))
  | .thrown => true

/-- Repeated attempts of `WhatsappSession.processWebhookQueue`, one
`AttemptResult` consumed per attempt.  A suspension is followed by the timer
clearing the guard and re-invoking the drain, so the run continues. -/
def wsWebhookRun : List WebhookJob → List AttemptResult → List WebhookJob × List WEvent
  | q, [] => (q, [])
  | [], _ :: _ => ([], [])
  | job :: rest, r :: rs =>
    ((wsWebhookRun (wsWebhookAttempt (job :: rest) r).queue rs).1,
      (wsWebhookAttempt (job :: rest) r).events ++
        (wsWebhookRun (wsWebhookAttempt (job :: rest) r).queue rs).2)

/-- The `catch` block of `BaileysProvider.processWebhookQueue`:
`job.retryCount++`; below the ceiling `unshift` and suspend for 5s, otherwise
drop and fire the alert. -/
def baileysTransientFailure (job : WebhookJob) (rest : List WebhookJob) : WStep :=
  if job.retryCount + 1 < maxWebhookRetries then
    ⟨{ job with retryCount := job.retryCount + 1 } :: rest,
      [.cooldown 5000], true⟩
  else
    ⟨rest, [.alertCritical], false⟩

/-- One iteration of the `while` loop of
`BaileysProvider.processWebhookQueue`: every non-2xx response is thrown
(`if (!response.ok) throw`), so there is no permanent 4xx branch. -/
def baileysWebhookAttempt : List WebhookJob → AttemptResult → WStep
  | [], _ => ⟨[], [], false⟩
  | job :: rest, .response st =>
    if 200 ≤ st ∧ st < 300 then
      ⟨rest, [.delivered], false⟩
    else
      baileysTransientFailure job rest
  | job :: rest, .thrown => baileysTransientFailure job rest

/-! ## Reconnection backoff -/

/-- `WhatsappSession.startReconnecting` delay for the (already incremented)
retryCount and a jitter draw: `min(5000 * 2^(retryCount-1) + jitter, 300000)`.
The jitter `Math.random() * 2000` lies in [0, 2000). -/
def wsReconnectDelay (retryCount jitter : Nat) : Nat :=
  min (5000 * 2 ^ (retryCount - 1) + jitter) 300000

/-- `WhatsappSession.startReconnecting`: increment retryCount; above
`maxRetry` set `max_retries_reached` and schedule nothing; otherwise schedule
`init` after the backoff delay (returned as `some delay`). -/
def startReconnecting (s : Session) (jitter : Nat) : Session × Option Nat :=
  if s.retryCount + 1 > maxRetry then
    ({ s with retryCount := s.retryCount + 1, status := .maxRetriesReached },
      none)
  else
    ({ s with retryCount := s.retryCount + 1 },
      some (wsReconnectDelay (s.retryCount + 1) jitter))

/-- `BaileysProvider.startReconnecting` delay: `5000 * 2^(retryCount-1)`, no
jitter, no cap. -/
def baileysReconnectDelay (retryCount : Nat) : Nat :=
  5000 * 2 ^ (retryCount - 1)

/-- `BaileysProvider.startReconnecting`. -/
def baileysStartReconnecting (s : Session) : Session × Option Nat :=
  if s.retryCount + 1 > maxRetry then
    ({ s with retryCount := s.retryCount + 1, status := .maxRetriesReached },
      none)
  else
    ({ s with retryCount := s.retryCount + 1 },
      some (baileysReconnectDelay (s.retryCount + 1)))

/-! ## Connection updates (WhatsappSession.handleConnectionUpdate) -/

/-- The Baileys `connection` field values. -/
inductive ConnState
  | connecting
  | connOpen
  | connClose
deriving DecidableEq

def connToStatus : ConnState → SessionStatus
  | .connecting => .connecting
  | .connOpen => .connOpen
  | .connClose => .connClose

/-- Side effects of a connection update. -/
inductive ConnEffect
  | scheduleInit (delayMs : Nat)
  | cleanup
  | drainOutbound
  | drainInbound
deriving DecidableEq

/-- `DisconnectReason.loggedOut` in Baileys. -/
def loggedOutCode : Nat := 401

/-- `handleConnectionUpdate`: `this.status = connection || this.status`;
`if (qr) this.qr = qr`; on "close" reconnect unless the disconnect reason is
`loggedOut` (then cleanup, which sets status "close"); on "open" reset
retryCount, clear the QR and trigger both drains. -/
def handleConnectionUpdate (s : Session) (connection : Option ConnState)
    (statusCode : Option Nat) (qr : Option Nat) (jitter : Nat) :
    Session × List ConnEffect :=
  let s1 : Session :=
    { s with
        status := match connection with
          | some c => connToStatus c
          | none => s.status
        qr := match qr with
          | some q => some q
          | none => s.qr }
  match connection with
  | some .connClose =>
    if statusCode ≠ some loggedOutCode then
      ((startReconnecting s1 jitter).1,
        match (startReconnecting s1 jitter).2 with
        | some d => [.scheduleInit d]
        | none => [])
    else
      ({ s1 with status := .connClose }, [.cleanup])
  | some .connOpen =>
    ({ s1 with retryCount := 0, qr := none }, [.drainOutbound, .drainInbound])
  | some .connecting => (s1, [])
  | none => (s1, [])

/-! ## Session registry (SessionManager) -/

/-- Externally visible operations of the registry code, in program order:
provider/session `init`, provider `logout`, removal of the registry binding,
`new OfficialWhatsappService(...)`, and a metadata-store write. -/
inductive RegOp
  | providerInit
  | providerLogout
  | registryRemove
  | officialServiceNew
  | storeWrite
deriving DecidableEq

/-- The `sessions` Map, as an association list. -/
abbrev Registry := List (String × Session)

def regLookup : Registry → String → Option Session
  | [], _ => none
  | (k, v) :: rest, id => if k = id then some v else regLookup rest id

/-- Rebind `id` (models mutating the Session object the Map points to). -/
def regSet : Registry → String → Session → Registry
  | [], _, _ => []
  | (k, v) :: rest, id, s =>
    if k = id then (k, s) :: regSet rest id s else (k, v) :: regSet rest id s

structure StartResult where
  registry : Registry
  session : Session
  ops : List RegOp
deriving DecidableEq

/-- `SessionManager.startSession` (the variant with Meta support): if a live
session exists, return it unchanged unless its status is
`max_retries_reached`, in which case optionally refresh the config, reset
`retryCount`, set status "starting" and re-run `init`; if absent, persist
metadata, construct the session (which may instantiate the official service)
and run `init`. -/
def startSession (reg : Registry) (sessionId : String)
    (webhookUrl : Option String) (metaConfig : Option MetaConfig)
    (freshInstanceId : Nat) : StartResult :=
  match regLookup reg sessionId with
  | some existing =>
    if existing.status = .maxRetriesReached then
      let s1 : Session :=
        { existing with
            metaConfig :=
              if metaConfig.isSome then metaConfig else existing.metaConfig
            webhookUrl :=
              if strTruthy webhookUrl then webhookUrl else existing.webhookUrl
            retryCount := 0
            status := .starting }
      ⟨regSet reg sessionId s1, s1, [.providerInit]⟩
    else
      ⟨reg, existing, []⟩
  | none =>
    let s := mkWhatsappSession freshInstanceId sessionId webhookUrl metaConfig
    ⟨reg ++ [(sessionId, s)], s,
      [.storeWrite] ++
        (if metaConfigTruthy metaConfig then [.officialServiceNew] else []) ++
        [.providerInit]⟩

/-! ## Hot config update (WhatsappSession.updateConfig,
SessionManager.updateSessionMetadata) -/

/-- `WhatsappSession.updateConfig(newWebhookUrl, newMetaConfig)`.  The outer
`Option` of each argument models `undefined` (not supplied) versus supplied;
the inner `Option` models a supplied `null`.  A supplied metaConfig with
phoneId and token re-instantiates the official service; otherwise the service
is cleared.  Nothing else is touched: no logout, no `init`, no queue change. -/
def updateConfig (s : Session) (newWebhookUrl : Option (Option String))
    (newMetaConfig : Option (Option MetaConfig)) : Session × List RegOp :=
  let s1 : Session :=
    match newWebhookUrl with
    | some w => { s with webhookUrl := w }
    | none => s
  match newMetaConfig with
  | some mc =>
    if metaConfigTruthy mc then
      ({ s1 with metaConfig := mc, officialService := mc },
        [.officialServiceNew])
    else
      ({ s1 with metaConfig := mc, officialService := none }, [])
  | none => (s1, [])

/-- The persisted `metadata.json` record. -/
structure StoredMetadata where
  sessionId : String
  webhookUrl : Option String
  metaConfig : Option MetaConfig
deriving DecidableEq

structure UpdateResult where
  registry : Registry
  stored : StoredMetadata
  ops : List RegOp
deriving DecidableEq

/-- `SessionManager.updateSessionMetadata(sessionId, updates)`: fail when the
session is not live; apply `updateConfig` to the live session; merge the
stored record keeping old values for fields not supplied and write it back
(fail if the record is missing; the in-memory mutation has already happened by
then, mirrored here by erroring after the fact). -/
def updateSessionMetadata (reg : Registry) (stored : Option StoredMetadata)
    (sessionId : String) (webhook : Option (Option String))
    (metaConfig : Option (Option MetaConfig)) :
    Except String UpdateResult :=
  match regLookup reg sessionId with
  | none =>
    .error "La sesión no está activa. Iníciela primero para actualizar su configuración."
  | some s =>
    let su := updateConfig s webhook metaConfig
    let reg1 := regSet reg sessionId su.1
    match stored with
    | some cur =>
      .ok ⟨reg1,
        { sessionId := cur.sessionId
          webhookUrl := match webhook with
            | some w => w
            | none => cur.webhookUrl
          metaConfig := match metaConfig with
            | some m => m
            | none => cur.metaConfig },
        su.2 ++ [.storeWrite]⟩
    | none => .error "No se encontró el archivo de metadata para esta sesión."

/-- Projection used by closed counterexamples: the op trace of a successful
update (empty on error). -/
def exceptOps : Except String UpdateResult → List RegOp
  | .ok r => r.ops
  | .error _ => []

/-- Projection used by closed counterexamples: whether the session is still
registered after a successful update. -/
def exceptRegistryHas (id : String) : Except String UpdateResult → Bool
  | .ok r => (regLookup r.registry id).isSome
  | .error _ => false

/-! ## Concrete sessions used by witnesses and counterexamples -/

/-- A freshly constructed session with a webhook URL (status "starting"). -/
def demoSession : Session := mkWhatsappSession 1 "s1" (some "http://wh") none

/-- A session without a webhook URL. -/
def noHookSession : Session := mkWhatsappSession 4 "c" none none

/-! # Claims -/

/-- C1 (amended): in `WhatsappSession.processWebhookQueue` a 4xx response
drops the head job with exactly one alert and no retry-count change and the
drain continues; any transient failure increments `retryCount`, and below
`maxWebhookRetries` (3) the job is pushed back to the head and the drain
suspends for a cooldown, while at the ceiling the job is dropped with exactly
one alert; a single job failing transiently exactly 3 times is dropped with
exactly one alert over the whole run.  In
`BaileysProvider.processWebhookQueue`, by contrast, a 4xx response is handled
by the same transient-failure path as every other failure. -/
theorem c1_webhook_classification :
    (∀ (job : WebhookJob) (rest : List WebhookJob) (st : Nat),
        400 ≤ st → st < 500 →
        wsWebhookAttempt (job :: rest) (.response st) =
          ⟨rest, [.alertPermanent], false⟩) ∧
    (∀ (job : WebhookJob) (rest : List WebhookJob) (r : AttemptResult),
        webhookTransientResult r = true →
        job.retryCount + 1 < maxWebhookRetries →
        wsWebhookAttempt (job :: rest) r =
          ⟨{ job with retryCount := job.retryCount + 1 } :: rest,
            [.cooldown 10000], true⟩) ∧
    (∀ (job : WebhookJob) (rest : List WebhookJob) (r : AttemptResult),
        webhookTransientResult r = true →
        maxWebhookRetries ≤ job.retryCount + 1 →
        wsWebhookAttempt (job :: rest) r = ⟨rest, [.alertCritical], false⟩) ∧
    (∀ raw : RawMsg,
        wsWebhookRun [⟨raw, 0⟩] [.thrown, .thrown, .thrown] =
          ([], [.cooldown 10000, .cooldown 10000, .alertCritical])) ∧
    (∀ (job : WebhookJob) (rest : List WebhookJob) (st : Nat),
        400 ≤ st → st < 500 →
        baileysWebhookAttempt (job :: rest) (.response st) =
          baileysTransientFailure job rest) := by
  refine ⟨?_, ?_, ?_, ?_, ?_⟩
  · intro job rest st h4 h5
    simp only [wsWebhookAttempt]
    rw [if_neg (by omega), if_pos (by omega)]
  · intro job rest r htr hlt
    cases r with
    | thrown =>
      simp only [wsWebhookAttempt, wsTransientFailure]
      rw [if_neg (by omega)]
    | response st =>
      simp only [webhookTransientResult, Bool.and_eq_true, Bool.not_eq_true',
        decide_eq_false_iff_not] at htr
      simp only [wsWebhookAttempt]
      rw [if_neg htr.1, if_neg htr.2]
      simp only [wsTransientFailure]
      rw [if_neg (by omega)]
  · intro job rest r htr hge
    cases r with
    | thrown =>
      simp only [wsWebhookAttempt, wsTransientFailure]
      rw [if_pos (by omega)]
    | response st =>
      simp only [webhookTransientResult, Bool.and_eq_true, Bool.not_eq_true',
        decide_eq_false_iff_not] at htr
      simp only [wsWebhookAttempt]
      rw [if_neg htr.1, if_neg htr.2]
      simp only [wsTransientFailure]
      rw [if_pos (by omega)]
  · intro raw
    rfl
  · intro job rest st h4 h5
    simp only [baileysWebhookAttempt]
    rw [if_neg (by omega)]

/-- Witness for C1 at concrete inputs. -/
theorem c1_webhook_classification_witness :
    wsWebhookAttempt [⟨⟨false, true, 1⟩, 0⟩] (.response 404) =
      ⟨[], [.alertPermanent], false⟩ ∧
    wsWebhookAttempt [⟨⟨false, true, 1⟩, 0⟩] .thrown =
      ⟨[⟨⟨false, true, 1⟩, 1⟩], [.cooldown 10000], true⟩ ∧
    wsWebhookAttempt [⟨⟨false, true, 1⟩, 2⟩] .thrown =
      ⟨[], [.alertCritical], false⟩ ∧
    baileysWebhookAttempt [⟨⟨false, true, 1⟩, 0⟩] (.response 404) =
      baileysTransientFailure ⟨⟨false, true, 1⟩, 0⟩ [] :=
  ⟨c1_webhook_classification.1 ⟨⟨false, true, 1⟩, 0⟩ [] 404 (by decide) (by decide),
   c1_webhook_classification.2.1 ⟨⟨false, true, 1⟩, 0⟩ [] .thrown (by decide) (by decide),
   c1_webhook_classification.2.2.1 ⟨⟨false, true, 1⟩, 2⟩ [] .thrown (by decide) (by decide),
   c1_webhook_classification.2.2.2.2 ⟨⟨false, true, 1⟩, 0⟩ [] 404 (by decide) (by decide)⟩

/-- C1 counterexample: in `BaileysProvider.processWebhookQueue` a job whose
webhook POST returns 404 is NOT dropped with one alert and zero retries — its
retry count is incremented, it is pushed back to the head of the queue and the
drain suspends for the cooldown. -/
theorem c1_counterexample :
    baileysWebhookAttempt [⟨⟨false, true, 7⟩, 0⟩] (.response 404) =
      ⟨[⟨⟨false, true, 7⟩, 1⟩], [.cooldown 5000], true⟩ ∧
    ¬ ((baileysWebhookAttempt [⟨⟨false, true, 7⟩, 0⟩] (.response 404)).queue = [] ∧
        (baileysWebhookAttempt [⟨⟨false, true, 7⟩, 0⟩]
            (.response 404)).events.count .alertPermanent = 1) := by
  decide

/-- C8: `sendMessage` appends the job to the tail of the outbound queue and
returns the queued marker whenever the session is not open or a drain is
running, without contacting the provider; otherwise it sends directly through
the provider and returns the provider call. -/
theorem c8_send_gate (s : Session) (number message : String) :
    (s.status ≠ .connOpen ∨ s.isProcessingQueue = true →
        sendMessage s number message =
          ({ s with messageQueue := s.messageQueue ++ [⟨number, message⟩] },
            .queued)) ∧
    (s.status = .connOpen → s.isProcessingQueue = false →
        sendMessage s number message = (s, .sent (toJid number) message)) := by
  constructor
  · intro h
    simp only [sendMessage]
    rw [if_pos]
    rcases h with h | h
    · exact Or.inl h
    · exact Or.inr (by simp [h])
  · intro h1 h2
    simp only [sendMessage]
    rw [if_neg (by simp [h1, h2])]
    rfl

/-- Witness for C8: a send on a starting session is queued; a send on an open
idle session goes to the provider. -/
theorem c8_send_gate_witness :
    sendMessage demoSession "31" "hola" =
      ({ demoSession with
          messageQueue := demoSession.messageQueue ++ [⟨"31", "hola"⟩] },
        .queued) ∧
    sendMessage { demoSession with status := .connOpen } "31" "hola" =
      ({ demoSession with status := .connOpen }, .sent (toJid "31") "hola") :=
  ⟨(c8_send_gate demoSession "31" "hola").1 (Or.inl (by decide)),
   (c8_send_gate { demoSession with status := .connOpen } "31" "hola").2 rfl rfl⟩

/-- C9 (amended): provided the session has a webhook URL configured, every
non-self-originated, content-bearing inbound event is appended to the tail of
the webhook queue as a job with retryCount 0 and the drain is triggered;
self-originated or content-less events are never enqueued; and when no
webhook URL is configured no event is enqueued at all. -/
theorem c9_inbound_enqueue (s : Session) (msg : RawMsg) :
    (strTruthy s.webhookUrl = true → msg.fromMe = false → msg.hasContent = true →
        handleMessages s msg =
          ({ s with webhookQueue := s.webhookQueue ++ [⟨msg, 0⟩] }, true)) ∧
    (msg.fromMe = true ∨ msg.hasContent = false →
        handleMessages s msg = (s, false)) ∧
    (strTruthy s.webhookUrl = false → handleMessages s msg = (s, false)) := by
  refine ⟨?_, ?_, ?_⟩
  · intro hw hf hc
    simp [handleMessages, hw, hf, hc]
  · intro h
    by_cases hw : strTruthy s.webhookUrl = true
    · rcases h with h | h <;> simp [handleMessages, hw, h]
    · simp only [Bool.not_eq_true] at hw
      simp [handleMessages, hw]
  · intro hw
    simp [handleMessages, hw]

/-- Witness for C9 at concrete inputs. -/
theorem c9_inbound_enqueue_witness :
    handleMessages demoSession ⟨false, true, 11⟩ =
      ({ demoSession with
          webhookQueue := demoSession.webhookQueue ++ [⟨⟨false, true, 11⟩, 0⟩] },
        true) ∧
    handleMessages demoSession ⟨true, true, 12⟩ = (demoSession, false) :=
  ⟨(c9_inbound_enqueue demoSession ⟨false, true, 11⟩).1 (by decide) rfl rfl,
   (c9_inbound_enqueue demoSession ⟨true, true, 12⟩).2.1 (Or.inl rfl)⟩

/-- C9 counterexample: a non-self-originated, content-bearing inbound event on
a session with no webhook URL is NOT enqueued (the claim as stated predicts it
is appended and a drain triggered). -/
theorem c9_counterexample :
    handleMessages noHookSession ⟨false, true, 11⟩ = (noHookSession, false) ∧
    (handleMessages noHookSession ⟨false, true, 11⟩).1.webhookQueue = [] := by
  exact ⟨rfl, rfl⟩

/-- Submitting sends while the session is not open only appends to the tail
of the outbound queue, in submission order. -/
theorem submitAll_not_open (msgs : List (String × String)) (s : Session)
    (h : s.status ≠ .connOpen) :
    submitAll s msgs =
      { s with messageQueue :=
          s.messageQueue ++ msgs.map (fun nm => ⟨nm.1, nm.2⟩) } := by
  induction msgs generalizing s with
  | nil => simp [submitAll]
  | cons nm rest ih =>
    have hsend : (sendMessage s nm.1 nm.2).1 =
        { s with messageQueue :=
            s.messageQueue ++ [(⟨nm.1, nm.2⟩ : OutJob)] } := by
      simp only [sendMessage]
      rw [if_pos (Or.inl h)]
    simp only [submitAll, hsend]
    rw [ih { s with messageQueue :=
        s.messageQueue ++ [(⟨nm.1, nm.2⟩ : OutJob)] } h]
    simp [List.append_assoc]

/-- When every provider send succeeds, the outbound drain loop empties the
queue, sending each job in order followed by the 1000ms delay. -/
theorem messageDrainLoop_all_ok (oracle : Nat → Bool)
    (hok : ∀ k, oracle k = true) :
    ∀ (q : List OutJob) (k : Nat),
      messageDrainLoop oracle q k =
        ([], q.flatMap fun jb =>
          [.sent (toJid jb.number) jb.message, .delayMs 1000]) := by
  intro q
  induction q with
  | nil => intro k; rfl
  | cons j rest ih =>
    intro k
    simp [messageDrainLoop, hok k, ih (k + 1)]

/-- The outbound drain loop on a queue whose first `pre.length` sends succeed
and whose next send fails: the sent prefix is consumed, the failing job is
pushed back to the head and the loop stops there. -/
theorem drainLoop_stops (oracle : Nat → Bool) (j : OutJob)
    (post : List OutJob) :
    ∀ (pre : List OutJob) (k : Nat),
      (∀ i, i < pre.length → oracle (k + i) = true) →
      oracle (k + pre.length) = false →
      messageDrainLoop oracle (pre ++ j :: post) k =
        (j :: post,
          pre.flatMap fun jb =>
            [.sent (toJid jb.number) jb.message, .delayMs 1000]) := by
  intro pre
  induction pre with
  | nil =>
    intro k hpre hfail
    simp only [List.length_nil, Nat.add_zero] at hfail
    simp [messageDrainLoop, hfail]
  | cons p rest ih =>
    intro k hpre hfail
    have hk : oracle k = true := by simpa using hpre 0 (by simp)
    have hrest := ih (k + 1)
      (fun i hi => by
        have h1 := hpre (i + 1) (by simpa using Nat.succ_lt_succ hi)
        have e : k + (i + 1) = k + 1 + i := by omega
        rwa [e] at h1)
      (by
        have e : k + (p :: rest).length = k + 1 + rest.length := by
          simp [Nat.add_comm, Nat.add_assoc, Nat.add_left_comm]
        rwa [e] at hfail)
    simp [messageDrainLoop, hk, hrest]

/-- C2: N text sends submitted while the session is not open are appended in
submission order; once the session is open, a drain in which every provider
send succeeds performs exactly the N provider calls in the original order,
each followed by the fixed 1000ms delay, and ends with an empty queue and the
single-flight guard false. -/
theorem c2_fifo_drain (s : Session) (msgs : List (String × String))
    (oracle : Nat → Bool) (hstat : s.status ≠ .connOpen)
    (hq : s.messageQueue = []) (hflag : s.isProcessingQueue = false)
    (hok : ∀ k, oracle k = true) :
    (submitAll s msgs).messageQueue =
      msgs.map (fun nm => ⟨nm.1, nm.2⟩) ∧
    (processMessageQueue { submitAll s msgs with status := .connOpen }
        oracle).1.messageQueue = [] ∧
    (processMessageQueue { submitAll s msgs with status := .connOpen }
        oracle).1.isProcessingQueue = false ∧
    (processMessageQueue { submitAll s msgs with status := .connOpen }
        oracle).2 =
      msgs.flatMap fun nm => [.sent (toJid nm.1) nm.2, .delayMs 1000] := by
  have hsub := submitAll_not_open msgs s hstat
  have hmq : (submitAll s msgs).messageQueue =
      msgs.map (fun nm => ⟨nm.1, nm.2⟩) := by
    rw [hsub]; simp [hq]
  have hflag' : (submitAll s msgs).isProcessingQueue = false := by
    rw [hsub]; exact hflag
  cases msgs with
  | nil =>
    refine ⟨hmq, ?_, ?_, ?_⟩ <;>
      simp [processMessageQueue, hmq, hflag', hq]
  | cons m ms =>
    have hrun := messageDrainLoop_all_ok oracle hok
    refine ⟨hmq, ?_, ?_, ?_⟩ <;>
      simp [processMessageQueue, hmq, hflag', hrun, List.flatMap_map]

/-- Witness for C2: two sends queued on a starting session, then drained. -/
theorem c2_fifo_drain_witness :
    (submitAll demoSession [("31", "a"), ("32", "b")]).messageQueue =
      [("31", "a"), ("32", "b")].map (fun nm => ⟨nm.1, nm.2⟩) ∧
    (processMessageQueue
        { submitAll demoSession [("31", "a"), ("32", "b")] with
            status := .connOpen } (fun _ => true)).1.messageQueue = [] ∧
    (processMessageQueue
        { submitAll demoSession [("31", "a"), ("32", "b")] with
            status := .connOpen } (fun _ => true)).1.isProcessingQueue = false ∧
    (processMessageQueue
        { submitAll demoSession [("31", "a"), ("32", "b")] with
            status := .connOpen } (fun _ => true)).2 =
      [("31", "a"), ("32", "b")].flatMap fun nm =>
        [.sent (toJid nm.1) nm.2, .delayMs 1000] :=
  c2_fifo_drain demoSession [("31", "a"), ("32", "b")] (fun _ => true)
    (by decide) rfl rfl (fun _ => rfl)

/-- C3: if the first `pre.length` sends of a drain succeed and the send of
the job `j` behind them fails, the drain pushes `j` back onto the head,
terminates immediately without touching the jobs behind it, and clears the
single-flight guard. -/
theorem c3_head_failure_blocks (s : Session) (pre : List OutJob) (j : OutJob)
    (post : List OutJob) (oracle : Nat → Bool)
    (hq : s.messageQueue = pre ++ j :: post)
    (hflag : s.isProcessingQueue = false)
    (hpre : ∀ i, i < pre.length → oracle i = true)
    (hfail : oracle pre.length = false) :
    (processMessageQueue s oracle).1.messageQueue = j :: post ∧
    (processMessageQueue s oracle).1.isProcessingQueue = false ∧
    (processMessageQueue s oracle).2 =
      pre.flatMap fun jb => [.sent (toJid jb.number) jb.message, .delayMs 1000] := by
  have hrun := drainLoop_stops oracle j post pre 0
    (fun i hi => by simpa using hpre i hi) (by simpa using hfail)
  refine ⟨?_, ?_, ?_⟩ <;>
    simp [processMessageQueue, hq, hflag, hrun]

/-- Queue used by the C3 witness. -/
def c3Session : Session :=
  { demoSession with
      messageQueue := [⟨"1", "m1"⟩, ⟨"2", "m2"⟩, ⟨"3", "m3"⟩] }

/-- Witness for C3: first send succeeds, second fails; the failed job is back
at the head and the third job was never attempted. -/
theorem c3_head_failure_blocks_witness :
    (processMessageQueue c3Session (fun k => k == 0)).1.messageQueue =
      (⟨"2", "m2"⟩ : OutJob) :: [⟨"3", "m3"⟩] ∧
    (processMessageQueue c3Session (fun k => k == 0)).1.isProcessingQueue =
      false ∧
    (processMessageQueue c3Session (fun k => k == 0)).2 =
      [(⟨"1", "m1"⟩ : OutJob)].flatMap fun jb =>
        [.sent (toJid jb.number) jb.message, .delayMs 1000] :=
  c3_head_failure_blocks c3Session [⟨"1", "m1"⟩] ⟨"2", "m2"⟩ [⟨"3", "m3"⟩]
    (fun k => k == 0) rfl rfl
    (fun i hi => by
      have hi1 : i < 1 := by simpa using hi
      have h0 : i = 0 := by omega
      subst h0; rfl)
    rfl

/-- Both branches of `startReconnecting` increment the retry count. -/
theorem startReconnecting_retryCount (s : Session) (j : Nat) :
    (startReconnecting s j).1.retryCount = s.retryCount + 1 := by
  simp only [startReconnecting]
  split <;> rfl

/-- Rebinding the id a lookup succeeds on makes the lookup return the new
session. -/
theorem regLookup_regSet (reg : Registry) (id : String) (s s1 : Session)
    (h : regLookup reg id = some s) :
    regLookup (regSet reg id s1) id = some s1 := by
  induction reg with
  | nil => simp [regLookup] at h
  | cons p rest ih =>
    obtain ⟨k, v⟩ := p
    by_cases hk : k = id
    · simp [regLookup, regSet, hk]
    · simp only [regLookup, regSet, if_neg hk] at h ⊢
      exact ih h

/-- C4: on a recoverable disconnect `retryCount` is incremented; above
`maxRetry` (5) the status becomes `max_retries_reached` and no timer is
scheduled; otherwise `init` is scheduled after
`min(5000·2^(retryCount−1) + jitter, 300000)` ms, and every scheduled delay
is ≤ 300000 ms.  The BaileysProvider variant schedules `5000·2^(retryCount−1)`
(the same expression with jitter 0, on which the cap is vacuous), also
bounded by 300000 ms. -/
theorem c4_backoff_bound (s : Session) (jitter : Nat) (_hj : jitter < 2000) :
    (startReconnecting s jitter).1.retryCount = s.retryCount + 1 ∧
    (s.retryCount + 1 > maxRetry →
        (startReconnecting s jitter).1.status = .maxRetriesReached ∧
        (startReconnecting s jitter).2 = none) ∧
    (s.retryCount + 1 ≤ maxRetry →
        (startReconnecting s jitter).2 =
          some (min (5000 * 2 ^ s.retryCount + jitter) 300000) ∧
        (startReconnecting s jitter).1.status = s.status) ∧
    (∀ d, (startReconnecting s jitter).2 = some d → d ≤ 300000) ∧
    (baileysStartReconnecting s).1.retryCount = s.retryCount + 1 ∧
    (s.retryCount + 1 > maxRetry →
        (baileysStartReconnecting s).1.status = .maxRetriesReached ∧
        (baileysStartReconnecting s).2 = none) ∧
    (s.retryCount + 1 ≤ maxRetry →
        (baileysStartReconnecting s).2 =
          some (min (5000 * 2 ^ s.retryCount + 0) 300000)) ∧
    (∀ d, (baileysStartReconnecting s).2 = some d → d ≤ 300000) := by
  by_cases hgt : s.retryCount + 1 > maxRetry
  · have hws : startReconnecting s jitter =
        ({ s with
            retryCount := s.retryCount + 1
            status := .maxRetriesReached }, none) := by
      simp only [startReconnecting, if_pos hgt]
    have hb : baileysStartReconnecting s =
        ({ s with
            retryCount := s.retryCount + 1
            status := .maxRetriesReached }, none) := by
      simp only [baileysStartReconnecting, if_pos hgt]
    refine ⟨by rw [hws], fun _ => by rw [hws]; exact ⟨rfl, rfl⟩,
      fun hle => absurd hle (by omega), ?_,
      by rw [hb], fun _ => by rw [hb]; exact ⟨rfl, rfl⟩,
      fun hle => absurd hle (by omega), ?_⟩
    · intro d hd; rw [hws] at hd; simp at hd
    · intro d hd; rw [hb] at hd; simp at hd
  · have hle5 : s.retryCount + 1 ≤ maxRetry := by omega
    have hws : startReconnecting s jitter =
        ({ s with retryCount := s.retryCount + 1 },
          some (wsReconnectDelay (s.retryCount + 1) jitter)) := by
      simp only [startReconnecting, if_neg hgt]
    have hb : baileysStartReconnecting s =
        ({ s with retryCount := s.retryCount + 1 },
          some (baileysReconnectDelay (s.retryCount + 1))) := by
      simp only [baileysStartReconnecting, if_neg hgt]
    have hpow : 5000 * 2 ^ s.retryCount ≤ 300000 := by
      have h4 : s.retryCount ≤ 4 := by
        simp only [maxRetry] at hle5; omega
      have h2 : 2 ^ s.retryCount ≤ 2 ^ 4 :=
        Nat.pow_le_pow_right (by norm_num) h4
      simp only [pow_succ, pow_zero] at h2
      omega
    have hwd : wsReconnectDelay (s.retryCount + 1) jitter =
        min (5000 * 2 ^ s.retryCount + jitter) 300000 := by
      simp [wsReconnectDelay]
    have hbd : baileysReconnectDelay (s.retryCount + 1) =
        min (5000 * 2 ^ s.retryCount + 0) 300000 := by
      simp only [baileysReconnectDelay, Nat.add_sub_cancel, Nat.add_zero]
      omega
    refine ⟨by rw [hws], fun hgt2 => absurd hgt2 (by omega),
      fun _ => by rw [hws, hwd]; exact ⟨rfl, rfl⟩, ?_,
      by rw [hb], fun hgt2 => absurd hgt2 (by omega),
      fun _ => by rw [hb, hbd], ?_⟩
    · intro d hd
      rw [hws] at hd
      simp only [Option.some.injEq] at hd
      subst hd
      simp [wsReconnectDelay]
    · intro d hd
      rw [hb] at hd
      simp only [Option.some.injEq] at hd
      subst hd
      simp only [baileysReconnectDelay, Nat.add_sub_cancel]
      omega

/-- Witness for C4 on a session at retryCount 2 with jitter 1500. -/
theorem c4_backoff_bound_witness :
    (startReconnecting { demoSession with retryCount := 2 } 1500).1.retryCount =
      2 + 1 ∧
    (startReconnecting { demoSession with retryCount := 2 } 1500).2 =
      some (min (5000 * 2 ^ 2 + 1500) 300000) := by
  have h := c4_backoff_bound { demoSession with retryCount := 2 } 1500
    (by decide)
  exact ⟨h.1, (h.2.2.1 (by decide)).1⟩

/-- C5: `startSession` on an id with a live session: when the status is not
`max_retries_reached` it returns the same session with nothing mutated, no
registry change and no provider init; when the status is
`max_retries_reached` it resets `retryCount` to 0, sets status "starting",
runs provider init exactly once and returns the same instance (same
`instanceId`), which the registry still maps to. -/
theorem c5_idempotent_restart (reg : Registry) (id : String)
    (w : Option String) (mc : Option MetaConfig) (fid : Nat) (s : Session)
    (hlook : regLookup reg id = some s) :
    (s.status ≠ .maxRetriesReached →
        startSession reg id w mc fid = ⟨reg, s, []⟩) ∧
    (s.status = .maxRetriesReached →
        (startSession reg id w mc fid).session.retryCount = 0 ∧
        (startSession reg id w mc fid).session.status = .starting ∧
        (startSession reg id w mc fid).ops = [.providerInit] ∧
        (startSession reg id w mc fid).session.instanceId = s.instanceId ∧
        regLookup (startSession reg id w mc fid).registry id =
          some (startSession reg id w mc fid).session) := by
  constructor
  · intro hne
    simp only [startSession, hlook]
    rw [if_neg hne]
  · intro heq
    simp only [startSession, hlook]
    rw [if_pos heq]
    exact ⟨rfl, rfl, rfl, rfl, regLookup_regSet reg id s _ hlook⟩

/-- A session that exhausted its reconnection budget. -/
def deadSession : Session :=
  { mkWhatsappSession 5 "a" none none with
      status := .maxRetriesReached, retryCount := 6 }

/-- Witness for C5: restarting a concrete `max_retries_reached` session. -/
theorem c5_idempotent_restart_witness :
    (startSession [("a", deadSession)] "a" none none 9).session.retryCount = 0 ∧
    (startSession [("a", deadSession)] "a" none none 9).session.status =
      .starting ∧
    (startSession [("a", deadSession)] "a" none none 9).ops =
      [.providerInit] ∧
    (startSession [("a", deadSession)] "a" none none 9).session.instanceId =
      deadSession.instanceId ∧
    regLookup (startSession [("a", deadSession)] "a" none none 9).registry
        "a" =
      some (startSession [("a", deadSession)] "a" none none 9).session :=
  (c5_idempotent_restart [("a", deadSession)] "a" none none 9 deadSession
      (by decide)).2 rfl

/-- C6 (amended): within `handleConnectionUpdate`, a transition into "open"
resets `retryCount` to 0, clears the QR and triggers both drains, and no other
connection update ever lowers `retryCount`; in addition, the registry's
`startSession` also resets `retryCount` to 0 when it restarts a
`max_retries_reached` session — a transition into "starting", not into
"open". -/
theorem c6_retry_reset (s : Session) (code : Option Nat) (q : Option Nat)
    (j : Nat) :
    ((handleConnectionUpdate s (some .connOpen) code q j).1.retryCount = 0 ∧
      (handleConnectionUpdate s (some .connOpen) code q j).1.qr = none ∧
      (handleConnectionUpdate s (some .connOpen) code q j).1.status =
        .connOpen ∧
      (handleConnectionUpdate s (some .connOpen) code q j).2 =
        [.drainOutbound, .drainInbound]) ∧
    (∀ c : Option ConnState, c ≠ some .connOpen →
        s.retryCount ≤ (handleConnectionUpdate s c code q j).1.retryCount) ∧
    (∀ (reg : Registry) (id : String) (w : Option String)
        (mc : Option MetaConfig) (fid : Nat) (s0 : Session),
        regLookup reg id = some s0 → s0.status = .maxRetriesReached →
        (startSession reg id w mc fid).session.retryCount = 0 ∧
        (startSession reg id w mc fid).session.status = .starting) := by
  refine ⟨⟨rfl, rfl, rfl, rfl⟩, ?_, ?_⟩
  · intro c hc
    match c with
    | none => exact Nat.le_refl _
    | some .connecting => exact Nat.le_refl _
    | some .connOpen => exact absurd rfl hc
    | some .connClose =>
      simp only [handleConnectionUpdate]
      by_cases hcode : code ≠ some loggedOutCode
      · rw [if_pos hcode]
        rw [startReconnecting_retryCount]
        exact Nat.le_succ _
      · rw [if_neg hcode]
  · intro reg id w mc fid s0 hlook heq
    simp only [startSession, hlook]
    rw [if_pos heq]
    exact ⟨rfl, rfl⟩

/-- Witness for C6 at concrete inputs. -/
theorem c6_retry_reset_witness :
    (handleConnectionUpdate demoSession (some .connOpen) (some 428) none
        0).1.retryCount = 0 ∧
    demoSession.retryCount ≤
      (handleConnectionUpdate demoSession (some .connClose) (some 428) none
          0).1.retryCount ∧
    (startSession [("a", deadSession)] "a" none none 9).session.retryCount =
      0 := by
  have h := c6_retry_reset demoSession (some 428) none 0
  exact ⟨h.1.1, h.2.1 (some .connClose) (by decide),
    (h.2.2 [("a", deadSession)] "a" none none 9 deadSession (by decide)
        rfl).1⟩

/-- C6 counterexample: restarting a `max_retries_reached` session through the
registry resets `retryCount` from 6 to 0 while transitioning into "starting",
not into "open" — so "open" is not the only transition that resets the retry
counter. -/
theorem c6_counterexample :
    deadSession.retryCount = 6 ∧
    (startSession [("a", deadSession)] "a" none none 9).session.retryCount =
      0 ∧
    (startSession [("a", deadSession)] "a" none none 9).session.status =
      .starting ∧
    SessionStatus.starting ≠ SessionStatus.connOpen := by
  decide

/-- C7 (amended): a webhook-only update is a hot in-place mutation (no
provider init, no logout, no registry removal; only a store write); a
transport-credentials update is ALSO hot and in-place — it replaces
`metaConfig`, re-instantiates the official REST service exactly once, keeps
the session registered and never logs out or re-inits the provider — and a
webhook supplied together with it is preserved; the merged stored record
keeps old values for fields not supplied. -/
theorem c7_hot_update (reg : Registry) (cur : StoredMetadata) (id : String)
    (s : Session) (hlook : regLookup reg id = some s) :
    (∀ w : Option String,
        updateSessionMetadata reg (some cur) id (some w) none =
          .ok ⟨regSet reg id { s with webhookUrl := w },
            { cur with webhookUrl := w }, [.storeWrite]⟩) ∧
    (∀ (w : Option String) (mc : MetaConfig),
        metaConfigTruthy (some mc) = true →
        updateSessionMetadata reg (some cur) id (some w) (some (some mc)) =
          .ok ⟨regSet reg id
              { s with
                  webhookUrl := w
                  metaConfig := some mc
                  officialService := some mc },
            { cur with webhookUrl := w, metaConfig := some mc },
            [.officialServiceNew, .storeWrite]⟩) ∧
    (∀ mc : MetaConfig,
        metaConfigTruthy (some mc) = true →
        updateSessionMetadata reg (some cur) id none (some (some mc)) =
          .ok ⟨regSet reg id
              { s with metaConfig := some mc, officialService := some mc },
            { cur with metaConfig := some mc },
            [.officialServiceNew, .storeWrite]⟩) := by
  refine ⟨?_, ?_, ?_⟩
  · intro w
    simp [updateSessionMetadata, hlook, updateConfig]
  · intro w mc hmc
    simp [updateSessionMetadata, hlook, updateConfig, hmc]
  · intro mc hmc
    simp [updateSessionMetadata, hlook, updateConfig, hmc]

/-- A live open session with webhook and Meta credentials. -/
def liveSession : Session :=
  { mkWhatsappSession 3 "b" (some "http://wh") (some ⟨"p1", "t1"⟩) with
      status := .connOpen }

/-- The stored metadata record matching `liveSession`. -/
def storedB : StoredMetadata := ⟨"b", some "http://wh", some ⟨"p1", "t1"⟩⟩

/-- Witness for C7: a webhook-only update and a credentials update on a
concrete session. -/
theorem c7_hot_update_witness :
    updateSessionMetadata [("b", liveSession)] (some storedB) "b"
        (some (some "http://wh2")) none =
      .ok ⟨regSet [("b", liveSession)] "b"
          { liveSession with webhookUrl := some "http://wh2" },
        { storedB with webhookUrl := some "http://wh2" }, [.storeWrite]⟩ ∧
    updateSessionMetadata [("b", liveSession)] (some storedB) "b"
        none (some (some ⟨"p2", "t2"⟩)) =
      .ok ⟨regSet [("b", liveSession)] "b"
          { liveSession with
              metaConfig := some ⟨"p2", "t2"⟩
              officialService := some ⟨"p2", "t2"⟩ },
        { storedB with metaConfig := some ⟨"p2", "t2"⟩ },
        [.officialServiceNew, .storeWrite]⟩ :=
  ⟨(c7_hot_update [("b", liveSession)] storedB "b" liveSession (by decide)).1
      (some "http://wh2"),
   (c7_hot_update [("b", liveSession)] storedB "b" liveSession
      (by decide)).2.2 ⟨"p2", "t2"⟩ (by decide)⟩

/-- C7 counterexample: a transport-credentials update on a live session does
NOT log out the provider, does NOT remove the session from the registry and
does NOT re-invoke provider init — the op trace of the update is exactly
[officialServiceNew, storeWrite] and the session stays registered. -/
theorem c7_counterexample :
    exceptOps (updateSessionMetadata [("b", liveSession)] (some storedB) "b"
        none (some (some ⟨"p2", "t2"⟩))) =
      [RegOp.officialServiceNew, RegOp.storeWrite] ∧
    exceptRegistryHas "b" (updateSessionMetadata [("b", liveSession)]
        (some storedB) "b" none (some (some ⟨"p2", "t2"⟩))) = true := by
  decide

/-- C10: every media send (`sendImage`, `sendDocument`, `sendAudio`,
`sendVideo`) on a session whose status is not open throws synchronously,
leaves the session (hence the outbound queue) unchanged and never enqueues —
unlike `sendMessage`, which queues the job in the same situation. -/
theorem c10_media_requires_open (s : Session)
    (recipient filePath caption mimetype : String) (fileName : Option String)
    (h : s.status ≠ .connOpen) :
    sendImage s recipient filePath caption =
      (s, .error "La sesión de WhatsApp no está abierta para enviar imágenes.") ∧
    sendDocument s recipient filePath fileName mimetype =
      (s, .error "La sesión de WhatsApp no está abierta para enviar documentos.") ∧
    sendAudio s recipient filePath mimetype =
      (s, .error "La sesión de WhatsApp no está abierta para enviar audio.") ∧
    sendVideo s recipient filePath caption =
      (s, .error "La sesión de WhatsApp no está abierta para enviar video.") ∧
    (sendMessage s recipient caption).1.messageQueue =
      s.messageQueue ++ [⟨recipient, caption⟩] := by
  refine ⟨?_, ?_, ?_, ?_, ?_⟩ <;>
    simp [sendImage, sendDocument, sendAudio, sendVideo, sendMessage, h]

/-- Witness for C10 on a concrete starting session. -/
theorem c10_media_requires_open_witness :
    sendImage demoSession "31" "f.bin" "cap" =
      (demoSession,
        .error "La sesión de WhatsApp no está abierta para enviar imágenes.") ∧
    sendDocument demoSession "31" "f.bin" (some "doc.pdf") "application/pdf" =
      (demoSession,
        .error "La sesión de WhatsApp no está abierta para enviar documentos.") ∧
    sendAudio demoSession "31" "f.bin" "application/pdf" =
      (demoSession,
        .error "La sesión de WhatsApp no está abierta para enviar audio.") ∧
    sendVideo demoSession "31" "f.bin" "cap" =
      (demoSession,
        .error "La sesión de WhatsApp no está abierta para enviar video.") ∧
    (sendMessage demoSession "31" "cap").1.messageQueue =
      demoSession.messageQueue ++ [⟨"31", "cap"⟩] :=
  c10_media_requires_open demoSession "31" "f.bin" "cap" "application/pdf"
    (some "doc.pdf") (by decide)

end BaileysServer
